import Mathlib

/-!
Verification development for the hospital-kiosk backend.

The embedding follows `src/main.py` and `src/schemas.py`.  The document
store itself (module `database`: `db`, `create_document`, `get_documents`,
the Mongo collection operations `aggregate`, `find_one`, `update_one`) is
not part of the repository sources; its operations are modelled from the
spec ("Document Store Adapter (external collaborator): generic
create/read/count over a single collection") with standard document-store
semantics: the collection is a list of documents in insertion order,
`find_one` returns the first match, `update_one` updates the first
document matching the filter, counting counts exact field matches.

Machine integers are modelled as `Nat` (Python ints are unbounded, all
quantities here are nonnegative counts).  `used_pct` arithmetic
(`int(round((booked / 25) * 100))`) is modelled as exact rational
arithmetic rounded with Python's `round` (banker's rounding); for the
values reachable here the quotient `booked * 100 / 25` is an exact
integer, so no rounding mode subtlety arises.  Python's `str.upper` and
the regex class `\d` are modelled on ASCII, which covers every string the
service itself produces.
-/

/-- A persisted appointment document, as stored in the `appointment`
collection.  Field set follows `schemas.Appointment` plus the
store-assigned `_id` (modelled as `Nat`) and the `checked_in_at`
timestamp set by check-in (modelled as `Option Nat`). -/
structure Doc where
  id : Nat
  patient_name : String
  phone : String
  email : Option String
  department : String
  date : String
  time_slot : Option String
  status : String
  booking_code : Option String
  checked_in_at : Option Nat
deriving DecidableEq

/-- The `appointment` collection: documents in insertion order. -/
abbrev Store := List Doc

/-- Request body of POST /appointments, following `schemas.AppointmentCreate`.
`email` is already validated as an email address at request parsing, so it
is carried opaquely. -/
structure AppointmentCreate where
  patient_name : String
  phone : String
  email : Option String
  department : String
  date : String
  time_slot : Option String
deriving DecidableEq

/-- Request body of POST /checkin, following `schemas.CheckInRequest`:
every field optional. -/
structure CheckInRequest where
  booking_code : Option String
  patient_name : Option String
  phone : Option String
  department : Option String
  date : Option String
deriving DecidableEq

/-- Response of POST /appointments. -/
structure CreateResponse where
  id : Nat
  booking_code : String
  status : String
deriving DecidableEq

/-- Response of POST /checkin. -/
structure CheckInResponse where
  id : Nat
  status : String
  booking_code : Option String
deriving DecidableEq

/-- Error outcomes surfaced as HTTPException / validation errors, using
the spec's error names (InvalidDepartment = 400 "Unknown department",
CapacityExceeded = 400 "No slots available...", InvalidDateRange = 422
query-constraint failure, MissingCheckInFields = 400 "Provide
booking_code or ...", AppointmentNotFound = 404, ValidationFailed =
pydantic validation error raised by the `Appointment` constructor). -/
inductive Err where
  | InvalidDepartment
  | CapacityExceeded
  | InvalidDateRange
  | MissingCheckInFields
  | AppointmentNotFound
  | ValidationFailed
deriving DecidableEq

/-- `DEPARTMENTS` from `main.py`. -/
def DEPARTMENTS : List String :=
  ["General", "Cardiology", "Pediatrics", "Radiology", "Orthopedics"]

/-- `DEPARTMENT_CAPACITY` from `main.py`. -/
def DEPARTMENT_CAPACITY : Nat := 25

/-- Python truthiness of an optional string: `None` and `""` are falsy. -/
def truthy : Option String → Bool
  | none => false
  | some s => s != ""

/-- The pydantic pattern check for `Appointment.date`
(regex `\d\x7b4\x7d-\d\x7b2\x7d-\d\x7b2\x7d` anchored): exactly
`YYYY-MM-DD` shape, digits modelled as ASCII digits. -/
def validDate (s : String) : Bool :=
  match s.toList with
  | [y1, y2, y3, y4, h1, m1, m2, h2, d1, d2] =>
    y1.isDigit && y2.isDigit && y3.isDigit && y4.isDigit && h1 == '-' &&
    m1.isDigit && m2.isDigit && h2 == '-' && d1.isDigit && d2.isDigit
  | _ => false

/-- Python `s[:3]` on a string. -/
def takeThree (s : String) : String := String.mk (s.toList.take 3)

/-- Python `str.upper` (ASCII, which covers the department names). -/
def pyUpper (s : String) : String := String.mk (s.toList.map Char.toUpper)

/-- Python `s.replace("-", "")`. -/
def stripDashes (s : String) : String :=
  String.mk (s.toList.filter (fun c => c != '-'))

/-- Python `f"{n:03d}"` for a nonnegative integer. -/
def pad3 (n : Nat) : String :=
  if n < 10 then "00" ++ toString n
  else if n < 100 then "0" ++ toString n
  else toString n

/-- Python `f"{n:02d}"` (strftime zero-padded month/day). -/
def pad2 (n : Nat) : String :=
  if n < 10 then "0" ++ toString n else toString n

/-- strftime `%Y` zero-padded year. -/
def pad4 (n : Nat) : String :=
  if n < 10 then "000" ++ toString n
  else if n < 100 then "00" ++ toString n
  else if n < 1000 then "0" ++ toString n
  else toString n

/-- `date(year, month, day).strftime("%Y-%m-%d")`. -/
def formatDate (y m d : Nat) : String :=
  pad4 y ++ "-" ++ pad2 m ++ "-" ++ pad2 d

/-- Gregorian leap-year rule used by `datetime.date`. -/
def isLeap (y : Nat) : Bool :=
  y % 4 = 0 && (y % 100 != 0 || y % 400 = 0)

/-- Number of days in a month, as validated by the `datetime.date`
constructor. -/
def daysInMonth (y m : Nat) : Nat :=
  if m = 2 then (if isLeap y then 29 else 28)
  else if m = 4 ∨ m = 6 ∨ m = 9 ∨ m = 11 then 30
  else 31

/-- Whether `date(y, m, d)` succeeds (for `y` already within the
query-validated range 1970..2100). -/
def dateValid (y m d : Nat) : Bool :=
  if 1 ≤ m ∧ m ≤ 12 ∧ 1 ≤ d ∧ d ≤ daysInMonth y m then true else false

/-- Python `round` (banker's rounding) of the exact rational `num / den`,
for `num den : Nat`, `den ≠ 0`. -/
def pyRound (num den : Nat) : Nat :=
  let q := num / den
  let r := num % den
  if 2 * r < den then q
  else if den < 2 * r then q + 1
  else if q % 2 = 0 then q else q + 1

/-- `count_booked_for` from `main.py`: the aggregate `$match` + `$count`
over the appointment collection, i.e. the number of documents whose
`department` and `date` both equal the arguments exactly. -/
def count_booked_for (store : Store) (department day_str : String) : Nat :=
  (store.filter (fun d => d.department == department && d.date == day_str)).length

/-- The expression `int(round((booked / DEPARTMENT_CAPACITY) * 100)) if
DEPARTMENT_CAPACITY else 0`, shared verbatim by `get_availability` and
`calendar_availability`. -/
def usedPctOf (booked : Nat) : Nat :=
  if DEPARTMENT_CAPACITY = 0 then 0 else pyRound (booked * 100) DEPARTMENT_CAPACITY

/-- `max(0, DEPARTMENT_CAPACITY - booked)` over Python ints; equals
truncated subtraction on `Nat`. -/
def remainingOf (booked : Nat) : Nat := DEPARTMENT_CAPACITY - booked

/-- Response of GET /availability. -/
structure AvailabilityResult where
  department : String
  date : String
  capacity : Nat
  booked : Nat
  remaining : Nat
  used_pct : Nat
deriving DecidableEq

/-- `get_availability` from `main.py`. -/
def get_availability (store : Store) (department date_str : String) :
    Except Err AvailabilityResult :=
  if department ∈ DEPARTMENTS then
    let booked := count_booked_for store department date_str
    .ok { department := department, date := date_str,
          capacity := DEPARTMENT_CAPACITY, booked := booked,
          remaining := remainingOf booked, used_pct := usedPctOf booked }
  else .error .InvalidDepartment

/-- Per-day metrics entry of GET /calendar-availability. -/
structure DayMetrics where
  booked : Nat
  remaining : Nat
  used_pct : Nat
  capacity : Nat
deriving DecidableEq

/-- The per-day metrics computed inside the `calendar_availability` loop
(`main.py` lines 96-103), identical expressions to `get_availability`. -/
def dayMetricsFor (store : Store) (department d_str : String) : DayMetrics :=
  let booked := count_booked_for store department d_str
  { booked := booked, remaining := remainingOf booked,
    used_pct := usedPctOf booked, capacity := DEPARTMENT_CAPACITY }

/-- Response of GET /calendar-availability; `days` is the insertion-order
mapping from ISO date string to metrics. -/
structure CalendarResult where
  department : String
  year : Nat
  month : Nat
  days : List (String × DayMetrics)
deriving DecidableEq

/-- `calendar_availability` from `main.py`.  The year/month bounds are the
FastAPI query constraints (`ge`/`le`), checked before the handler body;
the loop `for day in range(1, 32)` with the `date()` constructor guard is
the `filterMap` over `List.range' 1 31`. -/
def calendar_availability (store : Store) (department : String) (year month : Nat) :
    Except Err CalendarResult :=
  if 1970 ≤ year ∧ year ≤ 2100 ∧ 1 ≤ month ∧ month ≤ 12 then
    if department ∈ DEPARTMENTS then
      .ok { department := department, year := year, month := month,
            days := (List.range' 1 31).filterMap (fun day =>
              if dateValid year month day then
                some (formatDate year month day,
                      dayMetricsFor store department (formatDate year month day))
              else none) }
    else .error .InvalidDepartment
  else .error .InvalidDateRange

/-- The booking code built at `main.py` lines 118-120:
`f"..."` of the uppercased 3-char department slice, the date with dashes
removed, a dash, and the zero-padded counter `booked + 1`. -/
def mkBookingCode (p : AppointmentCreate) (booked : Nat) : String :=
  pyUpper (takeThree p.department) ++ stripDashes p.date ++ "-" ++ pad3 (booked + 1)

/-- The `Appointment` document built at `main.py` lines 122-131 and
persisted by `create_document`: payload fields plus `status = "booked"`,
the generated booking code, and no `checked_in_at`. -/
def mkDoc (nid : Nat) (p : AppointmentCreate) (code : String) : Doc :=
  { id := nid, patient_name := p.patient_name, phone := p.phone,
    email := p.email, department := p.department, date := p.date,
    time_slot := p.time_slot, status := "booked",
    booking_code := some code, checked_in_at := none }

/-- `create_appointment` from `main.py`.  `nid` is the store-assigned
identifier returned by `create_document`.  The pydantic `Appointment`
constructor validation (`patient_name` min length 2, `date` regex; the
remaining fields are already validated on the `AppointmentCreate`
payload) runs after the capacity check and booking-code generation, and a
failure raises before anything is persisted. -/
def create_appointment (store : Store) (nid : Nat) (p : AppointmentCreate) :
    Except Err (Store × CreateResponse) :=
  if p.department ∈ DEPARTMENTS then
    let booked := count_booked_for store p.department p.date
    if DEPARTMENT_CAPACITY ≤ booked then .error .CapacityExceeded
    else
      let code := mkBookingCode p booked
      if 2 ≤ p.patient_name.length ∧ validDate p.date = true then
        .ok (store ++ [mkDoc nid p code],
             { id := nid, booking_code := code, status := "booked" })
      else .error .ValidationFailed
  else .error .InvalidDepartment

/-- The Mongo filter `\x7b"booking_code": payload.booking_code\x7d` used
when a (truthy) booking code is supplied: match by booking code alone. -/
def codeQuery (p : CheckInRequest) (d : Doc) : Bool :=
  d.booking_code == p.booking_code

/-- The fallback Mongo filter on the four basic fields (`main.py` lines
167-172): exact equality on all of them. -/
def fourFieldQuery (p : CheckInRequest) (d : Doc) : Bool :=
  some d.patient_name == p.patient_name && some d.phone == p.phone &&
  some d.department == p.department && some d.date == p.date

/-- Query construction of `check_in` (`main.py` lines 159-172): the
booking-code filter when `payload.booking_code` is truthy, otherwise the
four-field filter provided all four fields are truthy, otherwise the
missing-fields error. -/
def queryOf (p : CheckInRequest) : Except Err (Doc → Bool) :=
  if truthy p.booking_code then .ok (codeQuery p)
  else if truthy p.patient_name && truthy p.phone &&
          truthy p.department && truthy p.date then .ok (fourFieldQuery p)
  else .error .MissingCheckInFields

/-- The `$set` applied by check-in's `update_one`: status becomes
`"checked_in"` and `checked_in_at` is set to the current time. -/
def setCheckedIn (d : Doc) (now : Nat) : Doc :=
  { d with status := "checked_in", checked_in_at := some now }

/-- `update_one(\x7b"_id": pid\x7d, \x7b"$set": ...\x7d)`: update the
first document with the given identifier. -/
def updateFirst (pid : Nat) (now : Nat) : Store → Store
  | [] => []
  | d :: ds =>
    if d.id = pid then setCheckedIn d now :: ds
    else d :: updateFirst pid now ds

/-- The response dict returned by `check_in` in both the no-op and the
update branch: the matched document's id and booking code with status
`"checked_in"`. -/
def checkInResp (d : Doc) : CheckInResponse :=
  { id := d.id, status := "checked_in", booking_code := d.booking_code }

/-- `check_in` from `main.py`.  `find_one` is the first match in the
collection; when the match is already checked in the store is returned
unchanged (idempotent no-op), otherwise the first document with the
matched `_id` is updated.  The `db is None` guard is outside this model
(the store is given). -/
def check_in (store : Store) (now : Nat) (p : CheckInRequest) :
    Except Err (Store × CheckInResponse) :=
  match queryOf p with
  | .error e => .error e
  | .ok q =>
    match store.find? q with
    | none => .error .AppointmentNotFound
    | some appt =>
      if appt.status == "checked_in" then .ok (store, checkInResp appt)
      else .ok (updateFirst appt.id now store, checkInResp appt)

/-- One projected patient record of GET /patients (`main.py` lines
193-202). -/
structure PatientView where
  id : Nat
  patient_name : String
  phone : String
  email : Option String
  department : String
  date : String
  status : String
  booking_code : Option String
deriving DecidableEq

/-- The projection applied to each document by `patients_tracking`. -/
def projectDoc (d : Doc) : PatientView :=
  { id := d.id, patient_name := d.patient_name, phone := d.phone,
    email := d.email, department := d.department, date := d.date,
    status := d.status, booking_code := d.booking_code }

/-- Summary block of GET /patients. -/
structure Summary where
  total : Nat
  checked_in : Nat
  booked : Nat
deriving DecidableEq

/-- The documents read by `patients_tracking`: all of them when the date
filter is absent or falsy (empty string), else those with exactly that
date (`main.py` lines 187-190). -/
def matchingDocs (store : Store) (date_str : Option String) : Store :=
  match date_str with
  | some d => if d != "" then store.filter (fun x => x.date == d) else store
  | none => store

/-- `patients_tracking` from `main.py`: projected records plus the
summary counted over them by status. -/
def patients_tracking (store : Store) (date_str : Option String) :
    Summary × List PatientView :=
  let out := (matchingDocs store date_str).map projectDoc
  ({ total := out.length,
     checked_in := (out.filter (fun x => x.status == "checked_in")).length,
     booked := (out.filter (fun x => x.status != "checked_in")).length },
   out)

/-- One mutating transition of the persisted store: a successful booking
or a successful check-in (the only operations that write). -/
inductive Step : Store → Store → Prop where
  | book (s : Store) (nid : Nat) (p : AppointmentCreate) (s' : Store) (r : CreateResponse) :
      create_appointment s nid p = .ok (s', r) → Step s s'
  | arrive (s : Store) (now : Nat) (p : CheckInRequest) (s' : Store) (r : CheckInResponse) :
      check_in s now p = .ok (s', r) → Step s s'

/-- Store states reachable from the empty collection through the
system's own operations. -/
def Reachable (s : Store) : Prop := Relation.ReflTransGen Step [] s

/-- Whether a fallible computation succeeded. -/
def isOkE {α : Type} : Except Err α → Bool
  | .ok _ => true
  | .error _ => false

/-- A sample valid booking payload used by the concrete witnesses. -/
def payCar : AppointmentCreate :=
  { patient_name := "Jane Doe", phone := "555-0000", email := none,
    department := "Cardiology", date := "2024-05-01", time_slot := none }

/-- A persisted Cardiology appointment on 2024-05-01, used to build
concrete stores in the witnesses. -/
def dCar : Doc := mkDoc 0 payCar "CAR20240501-000"

/-- A sample valid booking payload for the General department. -/
def payGen : AppointmentCreate :=
  { patient_name := "John Roe", phone := "555-0001", email := none,
    department := "General", date := "2024-05-01", time_slot := none }

/-- A persisted General appointment on 2024-05-01, used to build concrete
stores in the witnesses. -/
def dGen : Doc := mkDoc 0 payGen "GEN20240501-000"

/-- C1: for a registered department, `create_appointment` fails with
`CapacityExceeded` exactly when the persisted count for the
(department, date) pair has reached the capacity of 25, and succeeds
(appending exactly one document) when the count is strictly below 25 and
the payload is otherwise valid. -/
theorem C1_capacity_boundary :
    ∀ (store : Store) (nid : Nat) (p : AppointmentCreate),
    p.department ∈ DEPARTMENTS →
    (DEPARTMENT_CAPACITY ≤ count_booked_for store p.department p.date →
      create_appointment store nid p = .error .CapacityExceeded) ∧
    (count_booked_for store p.department p.date < DEPARTMENT_CAPACITY →
      2 ≤ p.patient_name.length → validDate p.date = true →
      create_appointment store nid p =
        .ok (store ++ [mkDoc nid p
               (mkBookingCode p (count_booked_for store p.department p.date))],
             { id := nid,
               booking_code :=
                 mkBookingCode p (count_booked_for store p.department p.date),
               status := "booked" })) := by
  intro store nid p hdep
  constructor
  · intro hcap
    simp only [create_appointment, if_pos hdep, if_pos hcap]
  · intro hlt hname hdate
    simp only [create_appointment, if_pos hdep]
    rw [if_neg (by omega), if_pos ⟨hname, hdate⟩]

/-- C1 witness: with 24 persisted Cardiology appointments on 2024-05-01
the 25th booking succeeds (code CAR20240501-025); with 25 persisted the
26th fails with `CapacityExceeded`. -/
theorem C1_capacity_boundary_witness :
    create_appointment (List.replicate 24 dCar) 99 payCar =
      .ok (List.replicate 24 dCar ++ [mkDoc 99 payCar
             (mkBookingCode payCar
               (count_booked_for (List.replicate 24 dCar) payCar.department payCar.date))],
           { id := 99,
             booking_code :=
               mkBookingCode payCar
                 (count_booked_for (List.replicate 24 dCar) payCar.department payCar.date),
             status := "booked" }) ∧
    mkBookingCode payCar
      (count_booked_for (List.replicate 24 dCar) payCar.department payCar.date) =
      "CAR20240501-025" ∧
    create_appointment (List.replicate 25 dCar) 99 payCar =
      .error .CapacityExceeded :=
  ⟨(C1_capacity_boundary (List.replicate 24 dCar) 99 payCar (by decide)).2
      (by decide) (by decide) (by decide),
   by decide,
   (C1_capacity_boundary (List.replicate 25 dCar) 99 payCar (by decide)).1
      (by decide)⟩

/-- C2: every successful `create_appointment` returns a booking code of
the form: uppercased first three characters of the department, the date
with dashes removed, a dash, and the zero-padded 3-digit value of the
pre-insertion count plus one. -/
theorem C2_booking_code_format :
    ∀ (store : Store) (nid : Nat) (p : AppointmentCreate)
      (s' : Store) (r : CreateResponse),
    create_appointment store nid p = .ok (s', r) →
    r.booking_code =
      pyUpper (takeThree p.department) ++ stripDashes p.date ++ "-" ++
        pad3 (count_booked_for store p.department p.date + 1) := by
  intro store nid p s' r h
  simp only [create_appointment] at h
  split_ifs at h
  simp only [Except.ok.injEq, Prod.mk.injEq] at h
  obtain ⟨-, hr⟩ := h
  subst hr
  rfl

/-- C2 witness: the first Cardiology booking on 2024-05-01 yields
CAR20240501-001 and the second yields CAR20240501-002. -/
theorem C2_booking_code_format_witness :
    ({ id := 1, booking_code := "CAR20240501-001",
       status := "booked" } : CreateResponse).booking_code =
      pyUpper (takeThree payCar.department) ++ stripDashes payCar.date ++ "-" ++
        pad3 (count_booked_for [] payCar.department payCar.date + 1) ∧
    ({ id := 2, booking_code := "CAR20240501-002",
       status := "booked" } : CreateResponse).booking_code =
      pyUpper (takeThree payCar.department) ++ stripDashes payCar.date ++ "-" ++
        pad3 (count_booked_for [mkDoc 1 payCar "CAR20240501-001"]
                payCar.department payCar.date + 1) :=
  ⟨C2_booking_code_format [] 1 payCar
      ([] ++ [mkDoc 1 payCar (mkBookingCode payCar 0)])
      { id := 1, booking_code := "CAR20240501-001", status := "booked" }
      (by rfl),
   C2_booking_code_format [mkDoc 1 payCar "CAR20240501-001"] 2 payCar
      ([mkDoc 1 payCar "CAR20240501-001"] ++ [mkDoc 2 payCar (mkBookingCode payCar 1)])
      { id := 2, booking_code := "CAR20240501-002", status := "booked" }
      (by rfl)⟩

/-- C7: a booking whose date fails the YYYY-MM-DD regex always fails
(persisting nothing) — with the pydantic validation error precisely when
the earlier capacity check passed — while any regex-shaped date,
including impossible calendar dates such as 2024-02-31, proceeds with no
further date validation. -/
theorem C7_date_shape_only :
    ∀ (store : Store) (nid : Nat) (p : AppointmentCreate),
    (validDate p.date = false →
      isOkE (create_appointment store nid p) = false) ∧
    (validDate p.date = false → p.department ∈ DEPARTMENTS →
      count_booked_for store p.department p.date < DEPARTMENT_CAPACITY →
      create_appointment store nid p = .error .ValidationFailed) ∧
    (validDate p.date = true → p.department ∈ DEPARTMENTS →
      count_booked_for store p.department p.date < DEPARTMENT_CAPACITY →
      2 ≤ p.patient_name.length →
      isOkE (create_appointment store nid p) = true) := by
  intro store nid p
  refine ⟨?_, ?_, ?_⟩
  · intro hbad
    simp only [create_appointment]
    split_ifs with h1 h2 h3 <;> try rfl
    exact absurd h3.2 (by simp [hbad])
  · intro hbad hdep hlt
    simp only [create_appointment, if_pos hdep]
    rw [if_neg (by omega), if_neg (by simp [hbad])]
  · intro hgood hdep hlt hname
    simp only [create_appointment, if_pos hdep]
    rw [if_neg (by omega), if_pos ⟨hname, hgood⟩]
    rfl

/-- Rounding `booked * 100 / 25` is exact: the quotient is the integer
`4 * booked`, so Python's banker's rounding returns it unchanged. -/
theorem pyRound_hundred_25 (b : Nat) : pyRound (b * 100) 25 = 4 * b := by
  simp only [pyRound]
  split_ifs <;> omega

/-- C4: for a registered department and any date string,
`get_availability` reports `booked` as the exact-match count,
`remaining = max(0, capacity - booked)`, and
`used_pct = round(booked / capacity * 100)`; hence
`remaining + booked = capacity` whenever `booked ≤ capacity` and
`remaining = 0` otherwise. -/
theorem C4_availability_metrics :
    ∀ (store : Store) (department date_str : String),
    department ∈ DEPARTMENTS →
    get_availability store department date_str =
      .ok { department := department, date := date_str,
            capacity := DEPARTMENT_CAPACITY,
            booked := count_booked_for store department date_str,
            remaining := remainingOf (count_booked_for store department date_str),
            used_pct := usedPctOf (count_booked_for store department date_str) } ∧
    ((remainingOf (count_booked_for store department date_str) : ℤ) =
      max 0 ((DEPARTMENT_CAPACITY : ℤ) -
        (count_booked_for store department date_str : ℤ))) ∧
    usedPctOf (count_booked_for store department date_str) =
      pyRound (count_booked_for store department date_str * 100)
        DEPARTMENT_CAPACITY ∧
    usedPctOf (count_booked_for store department date_str) =
      4 * count_booked_for store department date_str ∧
    (count_booked_for store department date_str ≤ DEPARTMENT_CAPACITY →
      remainingOf (count_booked_for store department date_str) +
        count_booked_for store department date_str = DEPARTMENT_CAPACITY) ∧
    (DEPARTMENT_CAPACITY < count_booked_for store department date_str →
      remainingOf (count_booked_for store department date_str) = 0) := by
  intro store department date_str hdep
  refine ⟨by simp only [get_availability, if_pos hdep], ?_, rfl, ?_, ?_, ?_⟩
  · simp only [remainingOf, DEPARTMENT_CAPACITY]
    omega
  · simp only [usedPctOf, DEPARTMENT_CAPACITY]
    rw [if_neg (by omega)]
    exact pyRound_hundred_25 _
  · intro h
    simp only [remainingOf, DEPARTMENT_CAPACITY] at h ⊢
    omega
  · intro h
    simp only [remainingOf, DEPARTMENT_CAPACITY] at h ⊢
    omega

/-- C4 witness: the metrics for General on 2024-05-01 over a store with
seven matching appointments: booked 7, remaining 18, used_pct 28. -/
theorem C4_availability_metrics_witness :
    get_availability (List.replicate 7 dGen) "General" "2024-05-01" =
      .ok { department := "General", date := "2024-05-01",
            capacity := DEPARTMENT_CAPACITY,
            booked := count_booked_for (List.replicate 7 dGen) "General" "2024-05-01",
            remaining := remainingOf
              (count_booked_for (List.replicate 7 dGen) "General" "2024-05-01"),
            used_pct := usedPctOf
              (count_booked_for (List.replicate 7 dGen) "General" "2024-05-01") } ∧
    count_booked_for (List.replicate 7 dGen) "General" "2024-05-01" = 7 ∧
    remainingOf (count_booked_for (List.replicate 7 dGen) "General" "2024-05-01") = 18 ∧
    usedPctOf (count_booked_for (List.replicate 7 dGen) "General" "2024-05-01") = 28 :=
  ⟨(C4_availability_metrics (List.replicate 7 dGen) "General" "2024-05-01"
      (by decide)).1,
   by decide, by decide, by decide⟩

/-- Splitting a list by a Boolean predicate preserves its length. -/
theorem length_filter_split {α : Type} (l : List α) (p : α → Bool) :
    (l.filter p).length + (l.filter (fun a => !(p a))).length = l.length := by
  induction l with
  | nil => rfl
  | cons a t ih =>
    cases h : p a <;> simp [List.filter_cons, h] <;> omega

/-- C9 (amended for Python truthiness of the date filter): the summary of
`patients_tracking` counts exactly the documents matching the filter —
exact date equality when a non-empty date is given, all documents when
the filter is absent or the empty string — total splits as
checked_in + booked, and the patient list is the fixed projection of
those documents. -/
theorem C9_patients_summary :
    ∀ (store : Store) (ds : Option String),
    (patients_tracking store ds).1.total = (matchingDocs store ds).length ∧
    (patients_tracking store ds).1.checked_in =
      ((matchingDocs store ds).filter (fun x => x.status == "checked_in")).length ∧
    (patients_tracking store ds).1.booked =
      ((matchingDocs store ds).filter (fun x => x.status != "checked_in")).length ∧
    (patients_tracking store ds).1.total =
      (patients_tracking store ds).1.checked_in +
        (patients_tracking store ds).1.booked ∧
    (patients_tracking store ds).2 = (matchingDocs store ds).map projectDoc := by
  intro store ds
  refine ⟨by simp [patients_tracking], ?_, ?_, ?_, rfl⟩
  · simp only [patients_tracking, List.filter_map, List.length_map]
    rfl
  · simp only [patients_tracking, List.filter_map, List.length_map]
    rfl
  · have h := length_filter_split ((matchingDocs store ds).map projectDoc)
      (fun x => x.status == "checked_in")
    have h2 : List.filter (fun a => !(a.status == "checked_in"))
        ((matchingDocs store ds).map projectDoc) =
        List.filter (fun a => a.status != "checked_in")
        ((matchingDocs store ds).map projectDoc) := rfl
    rw [h2] at h
    simp only [patients_tracking]
    exact h.symm

/-- C9 counterexample: with one persisted appointment dated 2024-05-01
and the date filter present but equal to the empty string, the code
returns total = 1 (the filter is dropped by truthiness) although zero
appointments have date equal to the given string, refuting the claim
that a given date filter always means exact string equality. -/
theorem C9_patients_summary_cex :
    (patients_tracking [dGen] (some "")).1.total = 1 ∧
    ([dGen].filter (fun x => x.date == ("" : String))).length = 0 := by
  decide

/-- C10: check-in tests field presence by Python truthiness: an empty
booking code behaves exactly like an absent one (falling through to the
four-field path), and an empty string in any of the four fallback fields
is treated as missing, failing with `MissingCheckInFields`. -/
theorem C10_truthiness :
    ∀ (store : Store) (now : Nat) (p : CheckInRequest),
    (p.booking_code = some "" →
      check_in store now p = check_in store now { p with booking_code := none }) ∧
    (truthy p.booking_code = false →
      (p.patient_name = some "" ∨ p.phone = some "" ∨
       p.department = some "" ∨ p.date = some "") →
      check_in store now p = .error .MissingCheckInFields) := by
  intro store now p
  constructor
  · intro h
    simp only [check_in, queryOf, h, truthy, bne_self_eq_false,
      Bool.false_eq_true, if_false]
    rfl
  · intro hbc hone
    have hq : queryOf p = .error .MissingCheckInFields := by
      simp only [queryOf, hbc, Bool.false_eq_true, if_false]
      rcases hone with h | h | h | h <;>
        simp [truthy, h]
    simp only [check_in, hq]

/-- C10 witness: with a store holding one booked appointment, a request
with booking_code = "" and all four fallback fields filled checks in via
the four-field path (same result as booking_code = None), and a request
whose phone is the empty string fails with the missing-fields error. -/
theorem C10_truthiness_witness :
    check_in [dCar] 3
      { booking_code := some "", patient_name := some "Jane Doe",
        phone := some "555-0000", department := some "Cardiology",
        date := some "2024-05-01" } =
      check_in [dCar] 3
        { booking_code := none, patient_name := some "Jane Doe",
          phone := some "555-0000", department := some "Cardiology",
          date := some "2024-05-01" } ∧
    check_in [dCar] 3
      { booking_code := none, patient_name := some "Jane Doe",
        phone := some "", department := some "Cardiology",
        date := some "2024-05-01" } = .error .MissingCheckInFields :=
  ⟨(C10_truthiness [dCar] 3
      { booking_code := some "", patient_name := some "Jane Doe",
        phone := some "555-0000", department := some "Cardiology",
        date := some "2024-05-01" }).1 rfl,
   (C10_truthiness [dCar] 3
      { booking_code := none, patient_name := some "Jane Doe",
        phone := some "", department := some "Cardiology",
        date := some "2024-05-01" }).2 (by rfl) (Or.inr (Or.inl rfl))⟩

/-- A check-in request providing an empty booking code together with the
four fallback fields of `dCar`. -/
def pEmptyCode : CheckInRequest :=
  { booking_code := some "", patient_name := some "Jane Doe",
    phone := some "555-0000", department := some "Cardiology",
    date := some "2024-05-01" }

/-- A check-in request by booking code only, for `dCar`. -/
def reqCar : CheckInRequest :=
  { booking_code := some "CAR20240501-000", patient_name := none,
    phone := none, department := none, date := none }

/-- A check-in request by booking code with a stray extra field. -/
def reqCarExtra : CheckInRequest :=
  { booking_code := some "CAR20240501-000", patient_name := some "Nobody",
    phone := none, department := none, date := none }

/-- A check-in request with neither a booking code nor all four fallback
fields. -/
def reqIncomplete : CheckInRequest :=
  { booking_code := none, patient_name := some "Jane Doe",
    phone := none, department := none, date := none }

/-- A check-in request with a booking code matching nothing. -/
def reqNope : CheckInRequest :=
  { booking_code := some "NOPE", patient_name := none,
    phone := none, department := none, date := none }

/-- Both check-in filters ignore `status` and `checked_in_at`, so the
`$set` of a check-in never changes whether a document matches. -/
theorem queryOf_setCheckedIn (p : CheckInRequest) (q : Doc → Bool)
    (h : queryOf p = .ok q) (d : Doc) (t : Nat) :
    q (setCheckedIn d t) = q d := by
  simp only [queryOf] at h
  split_ifs at h <;> injection h with h <;> subst h <;> rfl

/-- After checking in the first match `a` of filter `q` (unique ids),
`find_one` with the same filter returns the updated document. -/
theorem find?_updateFirst (q : Doc → Bool)
    (hq : ∀ d t, q (setCheckedIn d t) = q d) (now : Nat) :
    ∀ (s : Store) (a : Doc), (s.map Doc.id).Nodup → s.find? q = some a →
    (updateFirst a.id now s).find? q = some (setCheckedIn a now) := by
  intro s
  induction s with
  | nil => intro a _ h; cases h
  | cons d ds ih =>
    intro a hnd hf
    rw [List.map_cons, List.nodup_cons] at hnd
    by_cases hqd : q d = true
    · rw [List.find?_cons_of_pos _ hqd] at hf
      injection hf with hf
      subst hf
      have hq' : q (setCheckedIn d now) = true := by rw [hq]; exact hqd
      simp only [updateFirst, eq_self_iff_true, if_true]
      rw [List.find?_cons_of_pos _ hq']
    · rw [List.find?_cons_of_neg _ hqd] at hf
      have hmem : a ∈ ds := List.mem_of_find?_eq_some hf
      have hne : ¬ d.id = a.id := by
        intro h
        exact hnd.1 (h ▸ List.mem_map_of_mem Doc.id hmem)
      simp only [updateFirst, if_neg hne]
      rw [List.find?_cons_of_neg _ hqd]
      exact ih a hnd.2 hf

/-- C3: check-in is idempotent.  If the matched appointment is already
checked in, the call returns its current state with the store unchanged;
consequently (for a store with unique document ids, as the store adapter
guarantees) running the same check-in request twice in sequence yields
the same final store and response both times, the second call writing
nothing. -/
theorem C3_checkin_idempotent :
    ∀ (store : Store) (now now' : Nat) (p : CheckInRequest)
      (q : Doc → Bool) (a : Doc) (s₁ : Store) (r₁ : CheckInResponse),
    (queryOf p = .ok q → store.find? q = some a → a.status = "checked_in" →
      check_in store now p = .ok (store, checkInResp a)) ∧
    ((store.map Doc.id).Nodup → check_in store now p = .ok (s₁, r₁) →
      check_in s₁ now' p = .ok (s₁, r₁)) := by
  intro store now now' p q a s₁ r₁
  constructor
  · intro hq hf hst
    simp only [check_in, hq, hf]
    rw [if_pos (by simp [hst])]
  · intro hnd h
    rcases hqe : queryOf p with e | q'
    · simp [check_in, hqe] at h
    · simp only [check_in, hqe] at h
      rcases hfe : store.find? q' with _ | a'
      · simp [hfe] at h
      · simp only [hfe] at h
        by_cases hst : (a'.status == "checked_in") = true
        · rw [if_pos hst] at h
          simp only [Except.ok.injEq, Prod.mk.injEq] at h
          obtain ⟨hs, hr⟩ := h
          subst hs
          subst hr
          simp only [check_in, hqe, hfe]
          rw [if_pos hst]
        · rw [if_neg hst] at h
          simp only [Except.ok.injEq, Prod.mk.injEq] at h
          obtain ⟨hs, hr⟩ := h
          subst hs
          subst hr
          have hfind := find?_updateFirst q' (queryOf_setCheckedIn p q' hqe)
            now store a' hnd hfe
          simp only [check_in, hqe, hfind]
          rw [if_pos (by rfl)]
          rfl

/-- C3 witness: checking in booking CAR20240501-000 on a one-document
store succeeds, and repeating the same call on the resulting store is a
no-op returning the identical store and response. -/
theorem C3_checkin_idempotent_witness :
    check_in [setCheckedIn dCar 5] 9 reqCar =
      .ok ([setCheckedIn dCar 5], checkInResp (setCheckedIn dCar 5)) ∧
    check_in (updateFirst dCar.id 4 [dCar]) 9 reqCar =
      .ok (updateFirst dCar.id 4 [dCar], checkInResp dCar) :=
  ⟨(C3_checkin_idempotent [setCheckedIn dCar 5] 9 9 reqCar
      (codeQuery reqCar) (setCheckedIn dCar 5) []
      { id := 0, status := "", booking_code := none }).1 rfl rfl rfl,
   (C3_checkin_idempotent [dCar] 4 9 reqCar
      (fun _ => true) dCar (updateFirst dCar.id 4 [dCar])
      (checkInResp dCar)).2 (by decide) rfl⟩

/-- C5 (amended for Python truthiness): check-in matches by booking code
alone when the booking code is provided and non-empty, ignoring the
other fields; otherwise it requires all four fallback fields to be
present and non-empty, failing with `MissingCheckInFields` when any is
absent or empty, and matches by exact equality on all four; in either
path a filter with no match yields `AppointmentNotFound` (failures
return no store, so the store is unchanged). -/
theorem C5_lookup_strategy :
    ∀ (store : Store) (now : Nat) (p : CheckInRequest) (q : Doc → Bool),
    (truthy p.booking_code = true →
      queryOf p = .ok (codeQuery p) ∧
      check_in store now p =
        check_in store now
          { booking_code := p.booking_code, patient_name := none,
            phone := none, department := none, date := none }) ∧
    (truthy p.booking_code = false →
      ((truthy p.patient_name && truthy p.phone && truthy p.department &&
          truthy p.date) = false →
        check_in store now p = .error .MissingCheckInFields) ∧
      ((truthy p.patient_name && truthy p.phone && truthy p.department &&
          truthy p.date) = true →
        queryOf p = .ok (fourFieldQuery p))) ∧
    (queryOf p = .ok q → store.find? q = none →
      check_in store now p = .error .AppointmentNotFound) := by
  intro store now p q
  refine ⟨?_, ?_, ?_⟩
  · intro hbc
    constructor
    · simp only [queryOf, hbc, if_true]
    · simp only [check_in, queryOf, hbc, if_true]
      rfl
  · intro hbc
    constructor
    · intro hfour
      simp only [check_in, queryOf, hbc, hfour, Bool.false_eq_true, if_false]
    · intro hfour
      simp only [queryOf, hbc, hfour, Bool.false_eq_true, if_false, if_true]
  · intro hq hf
    simp only [check_in, hq, hf]

/-- C5 witness: lookup by booking code succeeds ignoring other fields;
an incomplete fallback request fails with the missing-fields error; an
unmatched filter fails with `AppointmentNotFound`. -/
theorem C5_lookup_strategy_witness :
    check_in [dCar] 9 reqCarExtra =
      check_in [dCar] 9
        { booking_code := reqCarExtra.booking_code, patient_name := none,
          phone := none, department := none, date := none } ∧
    check_in [dCar] 9 reqIncomplete = .error .MissingCheckInFields ∧
    check_in [dCar] 9 reqNope = .error .AppointmentNotFound :=
  ⟨((C5_lookup_strategy [dCar] 9 reqCarExtra (fun _ => true)).1 rfl).2,
   ((C5_lookup_strategy [dCar] 9 reqIncomplete (fun _ => true)).2.1 rfl).1 rfl,
   (C5_lookup_strategy [dCar] 9 reqNope (codeQuery reqNope)).2.2 rfl rfl⟩

/-- C5 counterexample: a request whose booking_code is provided but
empty, with all four fallback fields matching the stored appointment.
Matching "by booking code alone" (the claim as stated) finds nothing —
no stored document has booking code "" — yet the call does not fail with
`AppointmentNotFound`: the code drops the empty booking code and checks
the appointment in through the four-field path. -/
theorem C5_lookup_strategy_cex :
    pEmptyCode.booking_code = some "" ∧
    [dCar].find? (codeQuery pEmptyCode) = none ∧
    check_in [dCar] 4 pEmptyCode =
      .ok (updateFirst dCar.id 4 [dCar], checkInResp dCar) :=
  ⟨rfl, rfl, rfl⟩

/-- A `filterMap` whose function hits on every element is a `map`. -/
theorem filterMap_eq_map_of_some {α β : Type} (f : α → β) (g : α → Option β) :
    ∀ l : List α, (∀ x ∈ l, g x = some (f x)) → l.filterMap g = l.map f := by
  intro l
  induction l with
  | nil => intro; rfl
  | cons a t ih =>
    intro h
    rw [List.filterMap_cons, h a (by simp), List.map_cons,
      ih (fun x hx => h x (by simp [hx]))]

/-- A `filterMap` whose function misses on every element is empty. -/
theorem filterMap_eq_nil_of_none {α β : Type} (g : α → Option β) :
    ∀ l : List α, (∀ x ∈ l, g x = none) → l.filterMap g = [] := by
  intro l
  induction l with
  | nil => intro; rfl
  | cons a t ih =>
    intro h
    rw [List.filterMap_cons, h a (by simp), ih (fun x hx => h x (by simp [hx]))]

/-- Filtering the candidate days 1..31 down to those at most `k ≤ 31`
yields precisely the mapped prefix 1..k, in ascending order. -/
theorem range'_filterMap_le {β : Type} (k : Nat) (hk : k ≤ 31)
    (f : Nat → β) (g : Nat → Option β)
    (hg : ∀ d, 1 ≤ d → d ≤ 31 → g d = if d ≤ k then some (f d) else none) :
    (List.range' 1 31).filterMap g = (List.range' 1 k).map f := by
  have hsplit : List.range' 1 k ++ List.range' (1 + k) (31 - k) = List.range' 1 31 := by
    have h := List.range'_append 1 k (31 - k) 1
    rw [Nat.one_mul] at h
    rw [h]
    congr 1
    omega
  have h1 : ∀ x ∈ List.range' 1 k, g x = some (f x) := by
    intro x hx
    rw [List.mem_range'_1] at hx
    rw [hg x hx.1 (by omega), if_pos (by omega)]
  have h2 : ∀ x ∈ List.range' (1 + k) (31 - k), g x = none := by
    intro x hx
    rw [List.mem_range'_1] at hx
    rw [hg x (by omega) (by omega), if_neg (by omega)]
  rw [← hsplit, List.filterMap_append, filterMap_eq_map_of_some f g _ h1,
    filterMap_eq_nil_of_none g _ h2, List.append_nil]

/-- Every month has at most 31 days. -/
theorem daysInMonth_le (y m : Nat) : daysInMonth y m ≤ 31 := by
  simp only [daysInMonth]
  split_ifs <;> omega

/-- C6: for a registered department and year/month within the accepted
ranges, the calendar keys are exactly the ISO dates of the valid days of
that month in ascending day order (invalid candidates such as Feb 30 are
skipped), and every entry carries the same metrics `get_availability`
reports for that date. -/
theorem C6_calendar_days :
    ∀ (store : Store) (department : String) (year month : Nat),
    department ∈ DEPARTMENTS → 1970 ≤ year → year ≤ 2100 →
    1 ≤ month → month ≤ 12 →
    calendar_availability store department year month =
      .ok { department := department, year := year, month := month,
            days := (List.range' 1 (daysInMonth year month)).map (fun d =>
              (formatDate year month d,
               dayMetricsFor store department (formatDate year month d))) } ∧
    ((List.range' 1 (daysInMonth year month)).map (fun d =>
        (formatDate year month d,
         dayMetricsFor store department (formatDate year month d)))).map
      (fun kv => get_availability store department kv.1) =
    ((List.range' 1 (daysInMonth year month)).map (fun d =>
        (formatDate year month d,
         dayMetricsFor store department (formatDate year month d)))).map
      (fun kv => .ok { department := department, date := kv.1,
                       capacity := DEPARTMENT_CAPACITY, booked := kv.2.booked,
                       remaining := kv.2.remaining, used_pct := kv.2.used_pct }) := by
  intro store department year month hdep hy1 hy2 hm1 hm2
  constructor
  · simp only [calendar_availability]
    rw [if_pos (show 1970 ≤ year ∧ year ≤ 2100 ∧ 1 ≤ month ∧ month ≤ 12 from
      ⟨hy1, hy2, hm1, hm2⟩), if_pos hdep]
    have hdays := range'_filterMap_le (daysInMonth year month)
      (daysInMonth_le year month)
      (fun d => (formatDate year month d,
        dayMetricsFor store department (formatDate year month d)))
      (fun day => if dateValid year month day then
        some (formatDate year month day,
          dayMetricsFor store department (formatDate year month day))
        else none) ?_
    · rw [hdays]
    · intro d hd1 hd31
      by_cases hdk : d ≤ daysInMonth year month
      · rw [if_pos hdk]
        simp only [dateValid]
        have hb : (if 1 ≤ month ∧ month ≤ 12 ∧ 1 ≤ d ∧
            d ≤ daysInMonth year month then true else false) = true :=
          if_pos ⟨hm1, hm2, hd1, hdk⟩
        simp only [hb]
        rfl
      · rw [if_neg hdk]
        simp only [dateValid]
        have hb : (if 1 ≤ month ∧ month ≤ 12 ∧ 1 ≤ d ∧
            d ≤ daysInMonth year month then true else false) = false :=
          if_neg (fun h => hdk h.2.2.2)
        simp only [hb]
        rfl
  · apply List.map_congr_left
    intro kv hkv
    rw [List.mem_map] at hkv
    obtain ⟨dd, -, rfl⟩ := hkv
    simp only [get_availability, if_pos hdep, dayMetricsFor]

/-- Extract the day mapping of a calendar response. -/
def daysOf : Except Err CalendarResult → List (String × DayMetrics)
  | .ok r => r.days
  | .error _ => []

/-- C6 witness: for February 2023 the calendar over an empty store has
exactly the 28 valid days (no 2023-02-30 key), and April has no
2023-04-31 key. -/
theorem C6_calendar_days_witness :
    daysOf (calendar_availability [] "General" 2023 2) =
      (List.range' 1 (daysInMonth 2023 2)).map (fun d =>
        (formatDate 2023 2 d, dayMetricsFor [] "General" (formatDate 2023 2 d))) ∧
    (daysOf (calendar_availability [] "General" 2023 2)).length = 28 ∧
    ((daysOf (calendar_availability [] "General" 2023 2)).map Prod.fst).contains
      "2023-02-30" = false ∧
    ((daysOf (calendar_availability [] "General" 2023 4)).map Prod.fst).contains
      "2023-04-31" = false := by
  refine ⟨?_, by decide, by decide, by decide⟩
  rw [(C6_calendar_days [] "General" 2023 2 (by decide) (by decide) (by decide)
    (by decide) (by decide)).1]
  rfl

/-- Inversion of a successful booking: the store gains exactly one new
document, appended at the end. -/
theorem create_ok_inv (store : Store) (nid : Nat) (p : AppointmentCreate)
    (s' : Store) (r : CreateResponse)
    (h : create_appointment store nid p = .ok (s', r)) :
    s' = store ++ [mkDoc nid p
      (mkBookingCode p (count_booked_for store p.department p.date))] := by
  simp only [create_appointment] at h
  split_ifs at h
  simp only [Except.ok.injEq, Prod.mk.injEq] at h
  exact h.1.symm

/-- Inversion of a successful check-in: the store is unchanged (idempotent
no-op) or exactly one first-matching document was updated in place. -/
theorem checkin_ok_inv (store : Store) (now : Nat) (p : CheckInRequest)
    (s' : Store) (r : CheckInResponse)
    (h : check_in store now p = .ok (s', r)) :
    s' = store ∨ ∃ pid, s' = updateFirst pid now store := by
  rcases hq : queryOf p with e | q
  · simp [check_in, hq] at h
  · simp only [check_in, hq] at h
    rcases hf : store.find? q with _ | a
    · simp [hf] at h
    · simp only [hf] at h
      by_cases hst : (a.status == "checked_in") = true
      · rw [if_pos hst] at h
        simp only [Except.ok.injEq, Prod.mk.injEq] at h
        exact Or.inl h.1.symm
      · rw [if_neg hst] at h
        simp only [Except.ok.injEq, Prod.mk.injEq] at h
        exact Or.inr ⟨a.id, h.1.symm⟩

/-- Updating the first id-match preserves the store's length. -/
theorem updateFirst_length (pid now : Nat) :
    ∀ s : Store, (updateFirst pid now s).length = s.length := by
  intro s
  induction s with
  | nil => rfl
  | cons d ds ih =>
    simp only [updateFirst]
    split_ifs <;> simp [ih]

/-- Every document of the updated store is an original document or the
checked-in version of one. -/
theorem updateFirst_mem (pid now : Nat) :
    ∀ (s : Store) (x : Doc), x ∈ updateFirst pid now s →
    x ∈ s ∨ ∃ d, d ∈ s ∧ x = setCheckedIn d now := by
  intro s
  induction s with
  | nil => intro x hx; cases hx
  | cons d ds ih =>
    intro x hx
    simp only [updateFirst] at hx
    split_ifs at hx with h
    · rcases List.mem_cons.mp hx with h1 | h1
      · exact Or.inr ⟨d, List.mem_cons_self d ds, h1⟩
      · exact Or.inl (List.mem_cons_of_mem _ h1)
    · rcases List.mem_cons.mp hx with h1 | h1
      · exact Or.inl (h1 ▸ List.mem_cons_self d ds)
      · rcases ih x h1 with h2 | ⟨g, hg, he⟩
        · exact Or.inl (List.mem_cons_of_mem _ h2)
        · exact Or.inr ⟨g, List.mem_cons_of_mem _ hg, he⟩

/-- Positionally, updating the first id-match leaves a document unchanged
or replaces it by its checked-in version. -/
theorem updateFirst_getElem? (pid now : Nat) :
    ∀ (s : Store) (i : Nat), (updateFirst pid now s)[i]? = s[i]? ∨
      ∃ d, s[i]? = some d ∧
        (updateFirst pid now s)[i]? = some (setCheckedIn d now) := by
  intro s
  induction s with
  | nil => intro i; left; rfl
  | cons d ds ih =>
    intro i
    simp only [updateFirst]
    split_ifs with h
    · cases i with
      | zero =>
        right
        exact ⟨d, List.getElem?_cons_zero, List.getElem?_cons_zero⟩
      | succ j =>
        left
        rw [List.getElem?_cons_succ, List.getElem?_cons_succ]
    · cases i with
      | zero =>
        left
        rw [List.getElem?_cons_zero, List.getElem?_cons_zero]
      | succ j =>
        rw [List.getElem?_cons_succ, List.getElem?_cons_succ]
        exact ih j

/-- Status invariant: every document of a reachable store is booked or
checked in. -/
theorem reachable_statuses (s : Store) (hs : Reachable s) :
    ∀ d ∈ s, d.status = "booked" ∨ d.status = "checked_in" := by
  unfold Reachable at hs
  induction hs with
  | refl => intro d hd; cases hd
  | tail h1 h2 ih =>
    intro x hx
    rcases h2 with ⟨nid, p, s', r, hc⟩ | ⟨now, p, s', r, hc⟩
    · rw [create_ok_inv _ _ _ _ _ hc] at hx
      rcases List.mem_append.mp hx with h3 | h3
      · exact ih x h3
      · have h4 := List.mem_singleton.mp h3
        subst h4
        exact Or.inl rfl
    · rcases checkin_ok_inv _ _ _ _ _ hc with h3 | ⟨pid, h3⟩
      · subst h3
        exact ih x hx
      · subst h3
        rcases updateFirst_mem pid now _ x hx with h4 | ⟨g, hg, he⟩
        · exact ih x h4
        · subst he
          exact Or.inr rfl

/-- C8: appointment lifecycle.  In every reachable store each document's
status is booked or checked_in; a step (booking or check-in) never
deletes a document, any new document starts booked with no check-in
timestamp, and every existing position is either untouched or replaced
by its checked-in version — in particular a checked-in document never
reverts to booked. -/
theorem C8_lifecycle :
    ∀ (s s' : Store) (i j : Nat) (d d' e' : Doc),
    Reachable s → Step s s' →
    (d ∈ s → d.status = "booked" ∨ d.status = "checked_in") ∧
    s.length ≤ s'.length ∧
    (s.length ≤ j → s'[j]? = some e' →
      e'.status = "booked" ∧ e'.checked_in_at = none) ∧
    (s[i]? = some d → s'[i]? = some d' →
      (d' = d ∨ d' = setCheckedIn d (d'.checked_in_at.getD 0)) ∧
      (d.status = "checked_in" → d'.status = "checked_in")) := by
  intro s s' i j d d' e' hreach hstep
  refine ⟨fun hd => reachable_statuses s hreach d hd, ?_, ?_, ?_⟩
  · rcases hstep with ⟨nid, p, s2, r, hc⟩ | ⟨now, p, s2, r, hc⟩
    · rw [create_ok_inv _ _ _ _ _ hc]
      simp
    · rcases checkin_ok_inv _ _ _ _ _ hc with h3 | ⟨pid, h3⟩
      · subst h3
        exact Nat.le_refl _
      · subst h3
        rw [updateFirst_length]
  · intro hj hsome
    rcases hstep with ⟨nid, p, s2, r, hc⟩ | ⟨now, p, s2, r, hc⟩
    · have hs2 := create_ok_inv _ _ _ _ _ hc
      subst hs2
      rw [List.getElem?_append_right hj] at hsome
      rcases hn : j - s.length with _ | n
      · rw [hn, List.getElem?_cons_zero] at hsome
        injection hsome with h4
        subst h4
        exact ⟨rfl, rfl⟩
      · rw [hn, List.getElem?_cons_succ] at hsome
        rw [List.getElem?_eq_none (by simp)] at hsome
        cases hsome
    · rcases checkin_ok_inv _ _ _ _ _ hc with h3 | ⟨pid, h3⟩
      · subst h3
        rw [List.getElem?_eq_none hj] at hsome
        cases hsome
      · subst h3
        rw [List.getElem?_eq_none (by rw [updateFirst_length]; exact hj)]
          at hsome
        cases hsome
  · intro hsi hsi'
    have hi : i < s.length := by
      by_contra hlt
      rw [List.getElem?_eq_none (by omega)] at hsi
      cases hsi
    rcases hstep with ⟨nid, p, s2, r, hc⟩ | ⟨now, p, s2, r, hc⟩
    · have hs2 := create_ok_inv _ _ _ _ _ hc
      subst hs2
      rw [List.getElem?_append, if_pos hi] at hsi'
      rw [hsi] at hsi'
      injection hsi' with h4
      subst h4
      exact ⟨Or.inl rfl, fun h => h⟩
    · rcases checkin_ok_inv _ _ _ _ _ hc with h3 | ⟨pid, h3⟩
      · subst h3
        rw [hsi] at hsi'
        injection hsi' with h4
        subst h4
        exact ⟨Or.inl rfl, fun h => h⟩
      · subst h3
        rcases updateFirst_getElem? pid now s i with h4 | ⟨g, hg, he⟩
        · rw [h4, hsi] at hsi'
          injection hsi' with h5
          subst h5
          exact ⟨Or.inl rfl, fun h => h⟩
        · rw [hg] at hsi
          injection hsi with h5
          subst h5
          rw [he] at hsi'
          injection hsi' with h5
          subst h5
          exact ⟨Or.inr rfl, fun _ => rfl⟩

/-- The store after the first booking (Cardiology, 2024-05-01). -/
def wStore1 : Store := [mkDoc 1 payCar (mkBookingCode payCar 0)]

/-- A check-in request for booking code CAR20240501-001. -/
def reqCar1 : CheckInRequest :=
  { booking_code := some "CAR20240501-001", patient_name := none,
    phone := none, department := none, date := none }

/-- C8 witness: booking into the empty store then checking the booking in
— the booked document's status is legal, the check-in step deletes
nothing, and position 0 is replaced exactly by its checked-in version. -/
theorem C8_lifecycle_witness :
    ((mkDoc 1 payCar (mkBookingCode payCar 0)).status = "booked" ∨
      (mkDoc 1 payCar (mkBookingCode payCar 0)).status = "checked_in") ∧
    wStore1.length ≤ (updateFirst 1 4 wStore1).length ∧
    (setCheckedIn (mkDoc 1 payCar (mkBookingCode payCar 0)) 4 =
        mkDoc 1 payCar (mkBookingCode payCar 0) ∨
      setCheckedIn (mkDoc 1 payCar (mkBookingCode payCar 0)) 4 =
        setCheckedIn (mkDoc 1 payCar (mkBookingCode payCar 0))
          ((setCheckedIn (mkDoc 1 payCar
            (mkBookingCode payCar 0)) 4).checked_in_at.getD 0)) := by
  have h := C8_lifecycle wStore1 (updateFirst 1 4 wStore1) 0 1
    (mkDoc 1 payCar (mkBookingCode payCar 0))
    (setCheckedIn (mkDoc 1 payCar (mkBookingCode payCar 0)) 4)
    (mkDoc 1 payCar (mkBookingCode payCar 0))
    (Relation.ReflTransGen.single
      (Step.book [] 1 payCar wStore1
        { id := 1, booking_code := mkBookingCode payCar 0,
          status := "booked" } rfl))
    (Step.arrive wStore1 4 reqCar1 (updateFirst 1 4 wStore1)
      (checkInResp (mkDoc 1 payCar (mkBookingCode payCar 0))) rfl)
  exact ⟨h.1 (by decide), h.2.1, (h.2.2.2 rfl rfl).1⟩

/-- C7 witness: date "2024-5-1" (wrong shape) is rejected with the
validation error on an empty store, while the impossible calendar date
"2024-02-31" (correct shape) is accepted. -/
theorem C7_date_shape_only_witness :
    create_appointment [] 7
      { payCar with date := "2024-5-1" } = .error .ValidationFailed ∧
    isOkE (create_appointment [] 7 { payCar with date := "2024-02-31" }) = true :=
  ⟨(C7_date_shape_only [] 7 { payCar with date := "2024-5-1" }).2.1
      (by decide) (by decide) (by decide),
   (C7_date_shape_only [] 7 { payCar with date := "2024-02-31" }).2.2
      (by decide) (by decide) (by decide) (by decide)⟩
